import Mathlib

/-!
Verification development for the linear contact model of a discrete-element
simulation engine (`src/dem/contact/Linear.py`).  Machine floating-point
vectors (`vec3f`) are modelled as triples of real numbers; Taichi vector
operations are translated componentwise.
-/

open Classical

/-- Vector of three real scalars, modelling Taichi's `vec3f`. -/
structure Vec3 where
  x : ℝ
  y : ℝ
  z : ℝ

namespace Vec3

/-- Componentwise addition, modelling Taichi vector `+`. -/
def add (a b : Vec3) : Vec3 := ⟨a.x + b.x, a.y + b.y, a.z + b.z⟩

/-- Componentwise subtraction, modelling Taichi vector `-`. -/
def sub (a b : Vec3) : Vec3 := ⟨a.x - b.x, a.y - b.y, a.z - b.z⟩

/-- Componentwise negation. -/
def neg (a : Vec3) : Vec3 := ⟨-a.x, -a.y, -a.z⟩

/-- Scalar multiplication, modelling Taichi scalar-times-vector. -/
def smul (c : ℝ) (a : Vec3) : Vec3 := ⟨c * a.x, c * a.y, c * a.z⟩

/-- Dot product, modelling Taichi's `dot`. -/
def dot (a b : Vec3) : ℝ := a.x * b.x + a.y * b.y + a.z * b.z

/-- Cross product, modelling Taichi's `cross`. -/
def cross (a b : Vec3) : Vec3 :=
  ⟨a.y * b.z - a.z * b.y, a.z * b.x - a.x * b.z, a.x * b.y - a.y * b.x⟩

instance : Add Vec3 := ⟨add⟩
instance : Sub Vec3 := ⟨sub⟩
instance : Neg Vec3 := ⟨neg⟩
instance : SMul ℝ Vec3 := ⟨smul⟩
instance : Zero Vec3 := ⟨⟨0, 0, 0⟩⟩

/-- Euclidean norm, modelling Taichi's `.norm()`. -/
noncomputable def vnorm (a : Vec3) : ℝ := Real.sqrt (dot a a)

/-- Taichi's `.normalized()`: the vector divided by its norm (no zero guard). -/
noncomputable def normalizedT (a : Vec3) : Vec3 := (1 / vnorm a) • a

theorem add_def (a b : Vec3) : a + b = ⟨a.x + b.x, a.y + b.y, a.z + b.z⟩ := rfl
theorem sub_def (a b : Vec3) : a - b = ⟨a.x - b.x, a.y - b.y, a.z - b.z⟩ := rfl
theorem neg_def (a : Vec3) : -a = ⟨-a.x, -a.y, -a.z⟩ := rfl
theorem smul_def (c : ℝ) (a : Vec3) : c • a = ⟨c * a.x, c * a.y, c * a.z⟩ := rfl
theorem zero_def : (0 : Vec3) = ⟨0, 0, 0⟩ := rfl

theorem ext_iff (a b : Vec3) : a = b ↔ a.x = b.x ∧ a.y = b.y ∧ a.z = b.z := by
  cases a; cases b; simp [mk.injEq]

theorem dot_self_nonneg (a : Vec3) : 0 ≤ dot a a := by
  unfold dot; nlinarith [sq_nonneg a.x, sq_nonneg a.y, sq_nonneg a.z]

theorem vnorm_nonneg (a : Vec3) : 0 ≤ vnorm a := Real.sqrt_nonneg _

theorem vnorm_zero : vnorm (0 : Vec3) = 0 := by
  unfold vnorm dot; simp [zero_def]

theorem vnorm_eq_zero_iff (a : Vec3) : vnorm a = 0 ↔ a = 0 := by
  unfold vnorm
  rw [Real.sqrt_eq_zero (dot_self_nonneg a)]
  constructor
  · intro h
    cases a with
    | mk ax ay az =>
      unfold dot at h
      simp only [zero_def, mk.injEq]
      refine ⟨?_, ?_, ?_⟩ <;> nlinarith [sq_nonneg ax, sq_nonneg ay, sq_nonneg az]
  · intro h; rw [h]; unfold dot; simp [zero_def]

theorem smul_zero' (c : ℝ) : c • (0 : Vec3) = 0 := by
  simp [smul_def, zero_def]

theorem zero_smul' (a : Vec3) : (0 : ℝ) • a = 0 := by
  simp [smul_def, zero_def]

theorem smul_smul' (c d : ℝ) (a : Vec3) : c • (d • a) = (c * d) • a := by
  simp [smul_def, mk.injEq]; refine ⟨by ring, by ring, by ring⟩

theorem vnorm_smul (c : ℝ) (a : Vec3) : vnorm (c • a) = |c| * vnorm a := by
  unfold vnorm
  have h : dot (c • a) (c • a) = c ^ 2 * dot a a := by
    simp [smul_def, dot]; ring
  rw [h, Real.sqrt_mul (sq_nonneg c), Real.sqrt_sq_eq_abs]

theorem cross_smul_left (c : ℝ) (a b : Vec3) :
    cross (c • a) b = c • cross a b := by
  simp [cross, smul_def, mk.injEq]; refine ⟨by ring, by ring, by ring⟩

end Vec3

open Vec3

/-- Modelled from the spec: `EffectiveValue` (from `src/utils/ScalarFunction`,
not included under `src/`) is the harmonic-style effective combination of two
scalars, the `2*k1*k2/(k1+k2)` pattern described in the spec (§4.3, glossary
"Effective mass/value"). -/
noncomputable def EffectiveValue (a b : ℝ) : ℝ := 2 * a * b / (a + b)

/-- Modelled from the spec: `Normalize` (from `src/utils/VectorFunction`, not
included under `src/`) normalizes a vector, with a zero-norm input treated as
a zero contribution rather than a division fault (spec §7: numerical
degeneracies "handled locally by treating as zero contribution"). -/
noncomputable def Normalize (v : Vec3) : Vec3 :=
  if vnorm v = 0 then 0 else (1 / vnorm v) • v

theorem Normalize_zero : Normalize 0 = 0 := by
  unfold Normalize; simp [vnorm_zero]

/-!
Property table (`LinearSurfaceProperty` and the `LinearModel` property
operations, `src/dem/contact/Linear.py` lines 16-98, 159-172).
-/

/-- Per-material-pair surface property record (`LinearSurfaceProperty`,
Linear.py lines 159-165). -/
structure LinearSurfaceProperty where
  kn : ℝ
  ks : ℝ
  mu : ℝ
  ndratio : ℝ
  sdratio : ℝ

/-- The `surfaceProps` field: a flat store of property records indexed by the
composite material-pair index. -/
def SurfaceProps : Type := ℕ → LinearSurfaceProperty

/-- Pointwise update of one slot of the property store, modelling the Taichi
field write `self.surfaceProps[componousID] = ...`. -/
def writeSlot (props : SurfaceProps) (i : ℕ) (v : LinearSurfaceProperty) : SurfaceProps :=
  fun j => if j = i then v else props j

/-- Modelled from the spec: `get_componousID` (defined in
`ContactModelBase`, not included under `src/`) maps the ordered material
pair to its slot in the `max_material_num * max_material_num` flat store
(spec §2 "per-material-pair constants ... indexed by a symmetric composite
index"; §9 "compute a stable composite key from an ordered pair", the two
orderings being independently stored slots). -/
def get_componousID (max_material_num materialID1 materialID2 : ℕ) : ℕ :=
  materialID1 * max_material_num + materialID2

/-- Body of `LinearSurfaceProperty.add_surface_property` (Linear.py lines
167-172): overwrite every field of the record. -/
def add_record (kn ks mu ndratio sdratio : ℝ) : LinearSurfaceProperty :=
  ⟨kn, ks, mu, ndratio, sdratio⟩

/-- The five scalars extracted from a `property` dict by
`DictIO.GetEssential` in `add_surface_property` / `inherit_surface_property`. -/
structure PropertyDict where
  NormalStiffness : ℝ
  TangentialStiffness : ℝ
  Friction : ℝ
  NormalViscousDamping : ℝ
  TangentialViscousDamping : ℝ

/-- `LinearModel.add_surface_property` (Linear.py lines 36-51): write the raw
property record at `(materialID1, materialID2)`, and also at the swapped index
when the two material ids differ. -/
def add_surface_property (props : SurfaceProps) (max_material_num materialID1 materialID2 : ℕ)
    (property : PropertyDict) : SurfaceProps :=
  let kn := property.NormalStiffness
  let ks := property.TangentialStiffness
  let mu := property.Friction
  let ndratio := property.NormalViscousDamping
  let sdratio := property.TangentialViscousDamping
  if materialID1 = materialID2 then
    writeSlot props (get_componousID max_material_num materialID1 materialID2)
      (add_record kn ks mu ndratio sdratio)
  else
    writeSlot
      (writeSlot props (get_componousID max_material_num materialID1 materialID2)
        (add_record kn ks mu ndratio sdratio))
      (get_componousID max_material_num materialID2 materialID1)
      (add_record kn ks mu ndratio sdratio)

/-- `LinearModel.inherit_surface_property` (Linear.py lines 54-81): combine
two property sets — harmonic effective value for the stiffnesses, minimum for
friction and the damping ratios — and store at both orderings of the pair. -/
noncomputable def inherit_surface_property (props : SurfaceProps)
    (max_material_num materialID1 materialID2 : ℕ)
    (property1 property2 : PropertyDict) : SurfaceProps :=
  let kn := EffectiveValue property1.NormalStiffness property2.NormalStiffness
  let ks := EffectiveValue property1.TangentialStiffness property2.TangentialStiffness
  let mu := min property1.Friction property2.Friction
  let ndratio := min property1.NormalViscousDamping property2.NormalViscousDamping
  let sdratio := min property1.TangentialViscousDamping property2.TangentialViscousDamping
  if materialID1 = materialID2 then
    writeSlot props (get_componousID max_material_num materialID1 materialID2)
      (add_record kn ks mu ndratio sdratio)
  else
    writeSlot
      (writeSlot props (get_componousID max_material_num materialID1 materialID2)
        (add_record kn ks mu ndratio sdratio))
      (get_componousID max_material_num materialID2 materialID1)
      (add_record kn ks mu ndratio sdratio)

/-- `LinearModel.update_property` (Linear.py lines 83-98): `override` is
mapped to the scalar 1 or 0, and the named field of the addressed record is
set to `override * oldValue + value`; an unrecognized name falls through all
branches and changes nothing. -/
def update_property (props : SurfaceProps) (componousID : ℕ) (property_name : String)
    (value : ℝ) (override : Bool) : SurfaceProps :=
  let ov : ℝ := if override then 1 else 0
  if property_name = "NormalStiffness" then
    writeSlot props componousID
      { props componousID with kn := ov * (props componousID).kn + value }
  else if property_name = "TangentialStiffness" then
    writeSlot props componousID
      { props componousID with ks := ov * (props componousID).ks + value }
  else if property_name = "Friction" then
    writeSlot props componousID
      { props componousID with mu := ov * (props componousID).mu + value }
  else if property_name = "NormalViscousDamping" then
    writeSlot props componousID
      { props componousID with ndratio := ov * (props componousID).ndratio + value }
  else if property_name = "TangentialViscousDamping" then
    writeSlot props componousID
      { props componousID with sdratio := ov * (props componousID).sdratio + value }
  else
    props

/-!
Force assemblers (Linear.py lines 196-358).  The three assemblers share,
line for line, the normal/tangential force-law block (lines 205-229 =
245-269 = 289-313); that shared block is embedded once as `contactLaw`,
parameterized by the effective mass and relative velocity that differ
between them.
-/

/-- Per-particle state consumed by the assemblers (`scene.particle` fields
`x`, `rad`, `m`, `v`, `w`). -/
structure Particle where
  x : Vec3
  rad : ℝ
  m : ℝ
  v : Vec3
  w : Vec3

/-- Wall state consumed by `_particle_wall_force_assemble`: its velocity
(`_get_velocity()`) and its coverage-fraction primitive
`processCircleShape(pos, distance, -gapn)`, an external geometric callback
kept abstract as a function of those three arguments. -/
structure Wall where
  v : Vec3
  processCircleShape : Vec3 → ℝ → ℝ → ℝ

/-- Results of the shared force-law block: the locals `normal_force`,
`tangential_force` and `tangOverTemp` at the end of Linear.py lines 213-229. -/
structure ContactLaw where
  normal_force : Vec3
  tangential_force : Vec3
  tangOverTemp : Vec3

/-- Tangential component of the relative velocity
(`vs = v_rel - v_rel.dot(norm) * norm`, line 211). -/
def lawVs (v_rel norm : Vec3) : Vec3 := v_rel - dot v_rel norm • norm

/-- Normal spring force scalar (`normal_contact_force = -kn * gapn`, line 213). -/
def lawNcf (p : LinearSurfaceProperty) (gapn : ℝ) : ℝ := -p.kn * gapn

/-- Normal viscous damping force scalar (`normal_damping_force`, line 214). -/
noncomputable def lawNdf (p : LinearSurfaceProperty) (m_eff : ℝ) (v_rel norm : Vec3) : ℝ :=
  -2 * p.ndratio * Real.sqrt (m_eff * p.kn) * dot v_rel norm

/-- Projection of the stored overlap onto the current tangent plane
(`tangOverlapRot = tangOverlapOld - tangOverlapOld.dot(norm) * norm`, line 218). -/
def tangOverlapRot (tangOverlapOld norm : Vec3) : Vec3 :=
  tangOverlapOld - dot tangOverlapOld norm • norm

/-- Carried-forward overlap term of line 219: the stored overlap's norm times
the normalized tangent-plane projection,
`tangOverlapOld.norm() * Normalize(tangOverlapRot)`. -/
noncomputable def carriedOverlap (tangOverlapOld norm : Vec3) : Vec3 :=
  vnorm tangOverlapOld • Normalize (tangOverlapRot tangOverlapOld norm)

/-- Trial accumulated tangential overlap
(`tangOverTemp = vs * dt + tangOverlapOld.norm() * Normalize(tangOverlapRot)`,
line 219). -/
noncomputable def lawTangOverTrial (v_rel norm tangOverlapOld : Vec3) (dt : ℝ) : Vec3 :=
  dt • lawVs v_rel norm + carriedOverlap tangOverlapOld norm

/-- Elastic trial tangential force (`trial_ft = -ks * tangOverTemp`, line 220). -/
noncomputable def lawTrialFt (p : LinearSurfaceProperty) (v_rel norm tangOverlapOld : Vec3)
    (dt : ℝ) : Vec3 :=
  (-p.ks) • lawTangOverTrial v_rel norm tangOverlapOld dt

/-- Tangential viscous damping force (`tang_damping_force`, line 221). -/
noncomputable def lawTangDamping (p : LinearSurfaceProperty) (m_eff : ℝ) (v_rel norm : Vec3) : Vec3 :=
  (-2 * p.sdratio * Real.sqrt (m_eff * p.ks)) • lawVs v_rel norm

/-- Friction limit (`fric = miu * ti.abs(normal_contact_force +
normal_damping_force)`, line 223). -/
noncomputable def lawFric (p : LinearSurfaceProperty) (m_eff : ℝ) (v_rel norm : Vec3)
    (gapn : ℝ) : ℝ :=
  p.mu * |lawNcf p gapn + lawNdf p m_eff v_rel norm|

/-- Shared force-law block of the assemblers (Linear.py lines 205-229, repeated
verbatim at 245-269 and 289-313): normal spring-plus-damping force along the
normal, rotated tangential overlap accumulation, elastic trial force and
Coulomb return mapping (slip clips the force to the friction limit in the
trial direction and back-computes the stored overlap as
`-tangential_force / ks`; stick keeps trial plus damping). -/
noncomputable def contactLaw (p : LinearSurfaceProperty) (m_eff : ℝ) (v_rel : Vec3)
    (gapn : ℝ) (norm tangOverlapOld : Vec3) (dt : ℝ) : ContactLaw :=
  let normal_contact_force := lawNcf p gapn
  let normal_damping_force := lawNdf p m_eff v_rel norm
  let normal_force := (normal_contact_force + normal_damping_force) • norm
  let tangOverTemp := lawTangOverTrial v_rel norm tangOverlapOld dt
  let trial_ft := (-p.ks) • tangOverTemp
  let tang_damping_force := lawTangDamping p m_eff v_rel norm
  let fric := lawFric p m_eff v_rel norm gapn
  if vnorm trial_ft > fric then
    let tangential_force := fric • normalizedT trial_ft
    ⟨normal_force, tangential_force, (-(1 : ℝ) / p.ks) • tangential_force⟩
  else
    ⟨normal_force, trial_ft + tang_damping_force, tangOverTemp⟩

/-- Relative velocity at the contact point for a particle-particle contact
(Linear.py line 209). -/
def ppVrel (p1 p2 : Particle) (cpos : Vec3) : Vec3 :=
  p1.v + cross p1.w (cpos - p1.x) - (p2.v + cross p2.w (cpos - p2.x))

/-- Relative velocity for a coupled (MPM-DEM) particle contact (line 249):
particle 1 contributes translation only. -/
def coupledVrel (p1 p2 : Particle) (cpos : Vec3) : Vec3 :=
  p1.v - (p2.v + cross p2.w (cpos - p2.x))

/-- Relative velocity for a particle-wall contact (line 293): the wall
endpoint contributes translation only. -/
def pwVrel (p1 : Particle) (w : Wall) (cpos : Vec3) : Vec3 :=
  p1.v + cross p1.w (cpos - p1.x) - w.v

/-- Outputs of `_particle_particle_force_assemble` (lines 196-236): the
contact-record write and the force/moment increments atomically accumulated
onto the two particles. -/
structure PPResult where
  normal_force : Vec3
  tangential_force : Vec3
  tangOverTemp : Vec3
  force1 : Vec3
  moment1 : Vec3
  force2 : Vec3
  moment2 : Vec3

/-- `_particle_particle_force_assemble` (Linear.py lines 196-236). -/
noncomputable def ppForceAssemble (p : LinearSurfaceProperty) (p1 p2 : Particle)
    (tangOverlapOld : Vec3) (gapn : ℝ) (norm cpos : Vec3) (dt : ℝ) : PPResult :=
  let m_eff := EffectiveValue p1.m p2.m
  let v_rel := ppVrel p1 p2 cpos
  let law := contactLaw p m_eff v_rel gapn norm tangOverlapOld dt
  let Ftotal := law.normal_force + law.tangential_force
  let moment := cross law.tangential_force norm
  { normal_force := law.normal_force
    tangential_force := law.tangential_force
    tangOverTemp := law.tangOverTemp
    force1 := Ftotal
    moment1 := (p1.rad + 0.5 * gapn) • moment
    force2 := -Ftotal
    moment2 := (p2.rad + 0.5 * gapn) • moment }

/-- Outputs of `_coupled_particle_force_assemble` (lines 238-276). -/
structure CoupledResult where
  tangOverTemp : Vec3
  force1 : Vec3
  force2 : Vec3
  moment2 : Vec3

/-- `_coupled_particle_force_assemble` (Linear.py lines 238-276). -/
noncomputable def coupledForceAssemble (p : LinearSurfaceProperty) (p1 p2 : Particle)
    (tangOverlapOld : Vec3) (gapn : ℝ) (norm cpos : Vec3) (dt : ℝ) : CoupledResult :=
  let m_eff := EffectiveValue p1.m p2.m
  let v_rel := coupledVrel p1 p2 cpos
  let law := contactLaw p m_eff v_rel gapn norm tangOverlapOld dt
  let Ftotal := law.normal_force + law.tangential_force
  let resultant_momentum := cross Ftotal (cpos - p2.x)
  { tangOverTemp := law.tangOverTemp
    force1 := Ftotal
    force2 := -Ftotal
    moment2 := resultant_momentum }

/-- Outputs of `_particle_wall_force_assemble` (lines 282-320): the
contact-record write (fraction-scaled forces plus overlap) and the force and
moment accumulated onto the particle.  `wall_force` and `wall_moment` record
what the function accumulates onto the wall endpoint: the source updates only
`particle[end1]` (line 320), so they are zero. -/
structure PWResult where
  fraction : ℝ
  normal_force : Vec3
  tangential_force : Vec3
  stored_normal_force : Vec3
  stored_tangential_force : Vec3
  tangOverTemp : Vec3
  force1 : Vec3
  moment1 : Vec3
  wall_force : Vec3
  wall_moment : Vec3

/-- `_particle_wall_force_assemble` (Linear.py lines 282-320). -/
noncomputable def pwForceAssemble (p : LinearSurfaceProperty) (p1 : Particle) (w : Wall)
    (tangOverlapOld : Vec3) (distance gapn : ℝ) (norm cpos : Vec3) (dt : ℝ) : PWResult :=
  let m_eff := p1.m
  let v_rel := pwVrel p1 w cpos
  let law := contactLaw p m_eff v_rel gapn norm tangOverlapOld dt
  let fraction := |w.processCircleShape p1.x distance (-gapn)|
  let Ftotal := fraction • (law.normal_force + law.tangential_force)
  let resultant_momentum := fraction • cross Ftotal (p1.x - cpos)
  { fraction := fraction
    normal_force := law.normal_force
    tangential_force := law.tangential_force
    stored_normal_force := fraction • law.normal_force
    stored_tangential_force := fraction • law.tangential_force
    tangOverTemp := law.tangOverTemp
    force1 := Ftotal
    moment1 := resultant_momentum
    wall_force := 0
    wall_moment := 0 }

/-!
Rebuild from checkpoint (Linear.py lines 112-122 and 360-368).
`rebuild_contact_list` (in `ContactModelBase`, not under `src/`) only unpacks
the checkpoint file into the arrays `object_object`, `DstID` and
`oldTangOverlap`; the rebuild entry points are modelled as consuming those
arrays directly.
-/

/-- One history contact record (`hist_cplist` slot: fields `DstID`,
`oldTangOverlap`). -/
structure HistContact where
  DstID : ℕ
  oldTangOverlap : Vec3

/-- Mutable stores touched by the rebuild entry points: the capacity of the
active contact store `cplist` (only its shape is read), the history record
store `hist_cplist`, and the two per-owner cumulative count tables. -/
structure ContactState where
  cplistSize : ℕ
  hist_cplist : ℕ → HistContact
  hist_particle_particle : ℕ → ℕ
  hist_particle_wall : ℕ → ℕ

/-- Unpacked checkpoint arrays produced by `rebuild_contact_list`. -/
structure RebuildInput where
  object_object : List ℕ
  DstID : List ℕ
  oldTangOverlap : List Vec3

/-- `kernel_rebulid_history_contact_list` (Linear.py lines 360-368) applied to
one count table: copy `object_object` into the history count table, then for
each pair index below the last cumulative count write `DstID` and
`oldTangOverlap` into the history record store. -/
def kernel_rebulid_history (hist_cplist : ℕ → HistContact) (hist_object_object : ℕ → ℕ)
    (inp : RebuildInput) : (ℕ → HistContact) × (ℕ → ℕ) :=
  let n := inp.object_object.length
  let total := inp.object_object.getD (n - 1) 0
  (fun cp => if cp < total then
      ⟨inp.DstID.getD cp 0, inp.oldTangOverlap.getD cp 0⟩
    else hist_cplist cp,
   fun i => if i < n then inp.object_object.getD i 0 else hist_object_object i)

/-- `LinearModel.rebuild_ppcontact_list` (Linear.py lines 112-116): raise when
the restored pair count exceeds the `cplist` capacity — before any store is
written — else run the rebuild kernel on the particle-particle history.  The
first component is the raised error message, if any; the second is the
resulting state. -/
def rebuild_ppcontact_list (s : ContactState) (inp : RebuildInput) :
    Option String × ContactState :=
  if inp.DstID.length > s.cplistSize then
    (some "/body_coordination_number/ should be enlarged", s)
  else
    let r := kernel_rebulid_history s.hist_cplist s.hist_particle_particle inp
    (none, { s with hist_cplist := r.1, hist_particle_particle := r.2 })

/-- `LinearModel.rebuild_pwcontact_list` (Linear.py lines 118-122): identical
guard, targeting the particle-wall history count table. -/
def rebuild_pwcontact_list (s : ContactState) (inp : RebuildInput) :
    Option String × ContactState :=
  if inp.DstID.length > s.cplistSize then
    (some "/body_coordination_number/ should be enlarged", s)
  else
    let r := kernel_rebulid_history s.hist_cplist s.hist_particle_wall inp
    (none, { s with hist_cplist := r.1, hist_particle_wall := r.2 })

/-!
Sample concrete inputs used by witnesses and counterexamples.
-/

/-- Sample property record: unit stiffnesses, friction 1/2, no viscous damping. -/
noncomputable def pS : LinearSurfaceProperty := ⟨1, 1, 1/2, 0, 0⟩

/-- Sample property dict. -/
noncomputable def q0 : PropertyDict := ⟨100, 100, 1/2, 1/5, 1/5⟩

/-- Sample empty property store. -/
def props0 : SurfaceProps := fun _ => ⟨0, 0, 0, 0, 0⟩

/-- Sample contact state with `cplist` capacity 1. -/
def s0 : ContactState := ⟨1, fun _ => ⟨0, 0⟩, fun _ => 0, fun _ => 0⟩

/-- Sample rebuild input restoring two contact pairs. -/
def inp0 : RebuildInput := ⟨[2], [0, 1], [0, 0]⟩

theorem writeSlot_same (props : SurfaceProps) (i : ℕ) (v : LinearSurfaceProperty) :
    writeSlot props i v i = v := by simp [writeSlot]

theorem writeSlot_other (props : SurfaceProps) (i j : ℕ) (v : LinearSurfaceProperty)
    (h : j ≠ i) : writeSlot props i v j = props j := by simp [writeSlot, h]

/-- C7: for any two existing property sets, `inherit_surface_property` stores a
record whose normal and tangential stiffnesses are the harmonic effective
combination `2*k1*k2/(k1+k2)` of the inputs and whose friction coefficient and
two damping ratios are the minima of the corresponding inputs; in particular
stiffnesses 100 and 300 combine to 150. -/
theorem C7_inherit_surface_property (props : SurfaceProps)
    (max_material_num materialID1 materialID2 : ℕ) (q1 q2 : PropertyDict) :
    inherit_surface_property props max_material_num materialID1 materialID2 q1 q2
        (get_componousID max_material_num materialID1 materialID2) =
      { kn := 2 * q1.NormalStiffness * q2.NormalStiffness /
                (q1.NormalStiffness + q2.NormalStiffness)
        ks := 2 * q1.TangentialStiffness * q2.TangentialStiffness /
                (q1.TangentialStiffness + q2.TangentialStiffness)
        mu := min q1.Friction q2.Friction
        ndratio := min q1.NormalViscousDamping q2.NormalViscousDamping
        sdratio := min q1.TangentialViscousDamping q2.TangentialViscousDamping } ∧
    EffectiveValue 100 300 = 150 := by
  constructor
  · unfold inherit_surface_property
    split
    · simp [writeSlot, add_record, EffectiveValue]
    · by_cases hidx : get_componousID max_material_num materialID1 materialID2 =
        get_componousID max_material_num materialID2 materialID1
      · simp [writeSlot, hidx, add_record, EffectiveValue]
      · simp [writeSlot, Ne.symm hidx, add_record, EffectiveValue]
  · unfold EffectiveValue; norm_num

/-- C8: after `add_surface_property` or `inherit_surface_property` with
distinct material ids (both in range), the slots addressed by the two
orderings of the pair hold field-by-field equal records stored at distinct
(independent) indices of the flat store. -/
theorem C8_property_index_symmetry (props : SurfaceProps)
    (max_material_num materialID1 materialID2 : ℕ) (q q1 q2 : PropertyDict)
    (hne : materialID1 ≠ materialID2)
    (h1 : materialID1 < max_material_num) (h2 : materialID2 < max_material_num) :
    add_surface_property props max_material_num materialID1 materialID2 q
        (get_componousID max_material_num materialID1 materialID2) =
      add_surface_property props max_material_num materialID1 materialID2 q
        (get_componousID max_material_num materialID2 materialID1) ∧
    inherit_surface_property props max_material_num materialID1 materialID2 q1 q2
        (get_componousID max_material_num materialID1 materialID2) =
      inherit_surface_property props max_material_num materialID1 materialID2 q1 q2
        (get_componousID max_material_num materialID2 materialID1) ∧
    get_componousID max_material_num materialID1 materialID2 ≠
      get_componousID max_material_num materialID2 materialID1 := by
  have hidx : get_componousID max_material_num materialID1 materialID2 ≠
      get_componousID max_material_num materialID2 materialID1 := by
    unfold get_componousID
    intro h
    have hm : (2 : ℤ) ≤ (max_material_num : ℤ) := by
      have : 2 ≤ max_material_num := by omega
      exact_mod_cast this
    rcases Nat.lt_trichotomy materialID1 materialID2 with hlt | heq | hgt
    · have hlt' : (materialID1 : ℤ) < (materialID2 : ℤ) := by exact_mod_cast hlt
      zify at h
      nlinarith [mul_pos (sub_pos.mpr hlt')
        (show (0 : ℤ) < (max_material_num : ℤ) - 1 by linarith)]
    · exact hne heq
    · have hgt' : (materialID2 : ℤ) < (materialID1 : ℤ) := by exact_mod_cast hgt
      zify at h
      nlinarith [mul_pos (sub_pos.mpr hgt')
        (show (0 : ℤ) < (max_material_num : ℤ) - 1 by linarith)]
  refine ⟨?_, ?_, hidx⟩
  · unfold add_surface_property
    simp only [if_neg hne]
    rw [writeSlot_same, writeSlot_other _ _ _ _ hidx, writeSlot_same]
  · unfold inherit_surface_property
    simp only [if_neg hne]
    rw [writeSlot_same, writeSlot_other _ _ _ _ hidx, writeSlot_same]

/-- Witness for C8 at `max_material_num = 3`, materials 0 and 1. -/
theorem C8_property_index_symmetry_witness :
    ((0 : ℕ) ≠ 1 ∧ (0 : ℕ) < 3 ∧ (1 : ℕ) < 3) ∧
      get_componousID 3 0 1 ≠ get_componousID 3 1 0 :=
  ⟨⟨by decide, by decide, by decide⟩,
    (C8_property_index_symmetry props0 3 0 1 q0 q0 q0 (by decide) (by decide)
      (by decide)).2.2⟩

/-- C10: `update_property` modifies only the single named scalar field of the
addressed record — every other record is unchanged for any name, every other
field of the addressed record is unchanged — and the named field becomes
`oldValue + value` when `override` is true and exactly `value` when it is
false; an unrecognized property name leaves the store entirely unchanged. -/
theorem C10_update_property_frame (props : SurfaceProps) (i : ℕ) (value : ℝ)
    (override : Bool) (name : String) :
    (∀ j, j ≠ i → update_property props i name value override j = props j) ∧
    (update_property props i "NormalStiffness" value override i =
      { props i with kn := if override then (props i).kn + value else value }) ∧
    (update_property props i "TangentialStiffness" value override i =
      { props i with ks := if override then (props i).ks + value else value }) ∧
    (update_property props i "Friction" value override i =
      { props i with mu := if override then (props i).mu + value else value }) ∧
    (update_property props i "NormalViscousDamping" value override i =
      { props i with ndratio := if override then (props i).ndratio + value else value }) ∧
    (update_property props i "TangentialViscousDamping" value override i =
      { props i with sdratio := if override then (props i).sdratio + value else value }) ∧
    (name ∉ ["NormalStiffness", "TangentialStiffness", "Friction",
        "NormalViscousDamping", "TangentialViscousDamping"] →
      update_property props i name value override = props) := by
  refine ⟨?_, ?_, ?_, ?_, ?_, ?_, ?_⟩
  · intro j hj
    unfold update_property
    split_ifs <;> simp [writeSlot, hj]
  · unfold update_property
    cases override <;> simp [writeSlot]
  · unfold update_property
    cases override <;> simp [writeSlot]
  · unfold update_property
    cases override <;> simp [writeSlot]
  · unfold update_property
    cases override <;> simp [writeSlot]
  · unfold update_property
    cases override <;> simp [writeSlot]
  · intro hname
    simp only [List.mem_cons, List.mem_singleton, not_or] at hname
    unfold update_property
    simp [hname.1, hname.2.1, hname.2.2.1, hname.2.2.2.1, hname.2.2.2.2]

/-- Witness for C10: an unrecognized property name leaves the sample store
unchanged. -/
theorem C10_update_property_frame_witness :
    ("Stiffness" ∉ ["NormalStiffness", "TangentialStiffness", "Friction",
        "NormalViscousDamping", "TangentialViscousDamping"]) ∧
      update_property props0 0 "Stiffness" 5 true = props0 :=
  ⟨by decide,
    (C10_update_property_frame props0 0 5 true "Stiffness").2.2.2.2.2.2 (by decide)⟩

/-- C6: the rebuild-from-checkpoint entry points raise exactly when the
restored pair count exceeds the capacity of the active contact store, and on
that error the history record store and the history count tables are left
unmodified. -/
theorem C6_rebuild_capacity (s : ContactState) (inp : RebuildInput) :
    ((rebuild_ppcontact_list s inp).1 ≠ none ↔ s.cplistSize < inp.DstID.length) ∧
    (s.cplistSize < inp.DstID.length → (rebuild_ppcontact_list s inp).2 = s) ∧
    ((rebuild_pwcontact_list s inp).1 ≠ none ↔ s.cplistSize < inp.DstID.length) ∧
    (s.cplistSize < inp.DstID.length → (rebuild_pwcontact_list s inp).2 = s) := by
  unfold rebuild_ppcontact_list rebuild_pwcontact_list
  by_cases h : inp.DstID.length > s.cplistSize <;>
    simp [h, gt_iff_lt]

/-- Witness for C6: a store of capacity 1 rejects a two-pair checkpoint and
keeps its history untouched. -/
theorem C6_rebuild_capacity_witness :
    s0.cplistSize < inp0.DstID.length ∧ (rebuild_ppcontact_list s0 inp0).2 = s0 :=
  ⟨by decide, (C6_rebuild_capacity s0 inp0).2.1 (by decide)⟩

/-!
Helper lemmas about the shared force-law block.
-/

theorem one_smul' (a : Vec3) : (1 : ℝ) • a = a := by
  cases a; simp [Vec3.smul_def]

theorem lawFric_nonneg (p : LinearSurfaceProperty) (m_eff : ℝ) (v_rel norm : Vec3)
    (gapn : ℝ) (hmu : 0 ≤ p.mu) : 0 ≤ lawFric p m_eff v_rel norm gapn :=
  mul_nonneg hmu (abs_nonneg _)

/-- Branch characterization of the shared force-law block. -/
theorem contactLaw_eq (p : LinearSurfaceProperty) (m_eff : ℝ) (v_rel : Vec3) (gapn : ℝ)
    (norm tangOverlapOld : Vec3) (dt : ℝ) :
    contactLaw p m_eff v_rel gapn norm tangOverlapOld dt =
      if lawFric p m_eff v_rel norm gapn <
          vnorm (lawTrialFt p v_rel norm tangOverlapOld dt) then
        ⟨(lawNcf p gapn + lawNdf p m_eff v_rel norm) • norm,
         lawFric p m_eff v_rel norm gapn •
           normalizedT (lawTrialFt p v_rel norm tangOverlapOld dt),
         (-(1 : ℝ) / p.ks) • (lawFric p m_eff v_rel norm gapn •
           normalizedT (lawTrialFt p v_rel norm tangOverlapOld dt))⟩
      else
        ⟨(lawNcf p gapn + lawNdf p m_eff v_rel norm) • norm,
         lawTrialFt p v_rel norm tangOverlapOld dt + lawTangDamping p m_eff v_rel norm,
         lawTangOverTrial v_rel norm tangOverlapOld dt⟩ := rfl

/-- Stick branch: the output tangential force is the unclipped elastic trial
force plus the tangential damping force. -/
theorem contactLaw_stick (p : LinearSurfaceProperty) (m_eff : ℝ) (v_rel : Vec3)
    (gapn : ℝ) (norm tangOverlapOld : Vec3) (dt : ℝ)
    (h : vnorm (lawTrialFt p v_rel norm tangOverlapOld dt) ≤
      lawFric p m_eff v_rel norm gapn) :
    (contactLaw p m_eff v_rel gapn norm tangOverlapOld dt).tangential_force =
      lawTrialFt p v_rel norm tangOverlapOld dt + lawTangDamping p m_eff v_rel norm ∧
    (contactLaw p m_eff v_rel gapn norm tangOverlapOld dt).tangOverTemp =
      lawTangOverTrial v_rel norm tangOverlapOld dt := by
  rw [contactLaw_eq, if_neg (not_lt.mpr h)]
  exact ⟨rfl, rfl⟩

/-- Slip branch: the output tangential force has magnitude exactly the
friction limit and the direction of the trial force, and the stored overlap
equals minus the clipped force divided by the tangential stiffness. -/
theorem contactLaw_slip (p : LinearSurfaceProperty) (m_eff : ℝ) (v_rel : Vec3)
    (gapn : ℝ) (norm tangOverlapOld : Vec3) (dt : ℝ) (hmu : 0 ≤ p.mu)
    (h : lawFric p m_eff v_rel norm gapn <
      vnorm (lawTrialFt p v_rel norm tangOverlapOld dt)) :
    vnorm (contactLaw p m_eff v_rel gapn norm tangOverlapOld dt).tangential_force =
      lawFric p m_eff v_rel norm gapn ∧
    (contactLaw p m_eff v_rel gapn norm tangOverlapOld dt).tangential_force =
      (lawFric p m_eff v_rel norm gapn /
          vnorm (lawTrialFt p v_rel norm tangOverlapOld dt)) •
        lawTrialFt p v_rel norm tangOverlapOld dt ∧
    (contactLaw p m_eff v_rel gapn norm tangOverlapOld dt).tangOverTemp =
      (-(1 : ℝ) / p.ks) •
        (contactLaw p m_eff v_rel gapn norm tangOverlapOld dt).tangential_force := by
  have hF : 0 ≤ lawFric p m_eff v_rel norm gapn := lawFric_nonneg p m_eff v_rel norm gapn hmu
  have hT : 0 < vnorm (lawTrialFt p v_rel norm tangOverlapOld dt) := lt_of_le_of_lt hF h
  have hTne : vnorm (lawTrialFt p v_rel norm tangOverlapOld dt) ≠ 0 := ne_of_gt hT
  rw [contactLaw_eq, if_pos h]
  refine ⟨?_, ?_, rfl⟩
  · show vnorm (lawFric p m_eff v_rel norm gapn •
      normalizedT (lawTrialFt p v_rel norm tangOverlapOld dt)) = _
    unfold normalizedT
    rw [vnorm_smul, vnorm_smul, abs_of_nonneg hF,
      abs_of_nonneg (by positivity : (0 : ℝ) ≤
        1 / vnorm (lawTrialFt p v_rel norm tangOverlapOld dt))]
    field_simp
  · show lawFric p m_eff v_rel norm gapn •
      normalizedT (lawTrialFt p v_rel norm tangOverlapOld dt) = _
    unfold normalizedT
    rw [smul_smul', mul_one_div]

/-!
Sample contact configurations used by the witnesses and counterexamples of
the force-law claims.
-/

/-- Sample contact normal, the unit z vector. -/
noncomputable def nrmS : Vec3 := ⟨0, 0, 1⟩

/-- Sample contact point at the origin. -/
noncomputable def cS : Vec3 := ⟨0, 0, 0⟩

/-- Sample stored tangential overlap with a nonzero tangent-plane projection. -/
noncomputable def vO : Vec3 := ⟨3, 4, 0⟩

/-- Sample particle sliding with unit tangential velocity. -/
noncomputable def pA : Particle := ⟨⟨0, 0, 0⟩, 1, 1, ⟨1, 0, 0⟩, ⟨0, 0, 0⟩⟩

/-- Sample particle at rest at the origin. -/
noncomputable def pB : Particle := ⟨⟨0, 0, 0⟩, 1, 1, ⟨0, 0, 0⟩, ⟨0, 0, 0⟩⟩

/-- Sample particle at rest, offset from the contact point along x. -/
noncomputable def pC : Particle := ⟨⟨1, 0, 0⟩, 1, 1, ⟨0, 0, 0⟩, ⟨0, 0, 0⟩⟩

/-- Sample wall at rest whose coverage primitive returns one half. -/
noncomputable def wS : Wall := ⟨⟨0, 0, 0⟩, fun _ _ _ => 1 / 2⟩

theorem carriedOverlap_zero (norm : Vec3) : carriedOverlap 0 norm = 0 := by
  unfold carriedOverlap
  rw [vnorm_zero, zero_smul']

theorem ppVrel_pA_pB : ppVrel pA pB cS = ⟨1, 0, 0⟩ := by
  simp [ppVrel, pA, pB, cS, cross, Vec3.add_def, Vec3.sub_def, Vec3.zero_def]

theorem ppVrel_pB_pB : ppVrel pB pB cS = 0 := by
  simp [ppVrel, pB, cS, cross, Vec3.add_def, Vec3.sub_def, Vec3.zero_def]

theorem pwVrel_pC_wS : pwVrel pC wS cS = 0 := by
  simp [pwVrel, pC, wS, cS, cross, Vec3.add_def, Vec3.sub_def, Vec3.zero_def]

theorem lawVs_x (v : Vec3) (hv : v = ⟨1, 0, 0⟩) : lawVs v nrmS = ⟨1, 0, 0⟩ := by
  subst hv
  simp [lawVs, nrmS, dot, Vec3.smul_def, Vec3.sub_def]

theorem lawVs_zero : lawVs 0 nrmS = 0 := by
  simp [lawVs, nrmS, dot, Vec3.smul_def, Vec3.sub_def, Vec3.zero_def]

theorem lawFric_sample (v_rel : Vec3) (m_eff : ℝ) (hvn : dot v_rel nrmS = 0) :
    lawFric pS m_eff v_rel nrmS (-1) = 1 / 2 := by
  unfold lawFric lawNcf lawNdf
  rw [hvn]
  norm_num [pS]

theorem lawTrialFt_pA : lawTrialFt pS (ppVrel pA pB cS) nrmS 0 1 = ⟨-1, 0, 0⟩ := by
  unfold lawTrialFt lawTangOverTrial
  rw [ppVrel_pA_pB, carriedOverlap_zero, lawVs_x _ rfl]
  simp [pS, Vec3.smul_def, Vec3.add_def, Vec3.zero_def]

theorem lawTrialFt_pB : lawTrialFt pS (ppVrel pB pB cS) nrmS 0 1 = 0 := by
  unfold lawTrialFt lawTangOverTrial
  rw [ppVrel_pB_pB, carriedOverlap_zero, lawVs_zero]
  simp [Vec3.smul_def, Vec3.add_def, Vec3.zero_def]

theorem lawTrialFt_pC : lawTrialFt pS (pwVrel pC wS cS) nrmS 0 1 = 0 := by
  unfold lawTrialFt lawTangOverTrial
  rw [pwVrel_pC_wS, carriedOverlap_zero, lawVs_zero]
  simp [Vec3.smul_def, Vec3.add_def, Vec3.zero_def]

theorem vnorm_neg_x : vnorm (⟨-1, 0, 0⟩ : Vec3) = 1 := by
  unfold vnorm dot
  norm_num

theorem slip_sample :
    lawFric pS (EffectiveValue pA.m pB.m) (ppVrel pA pB cS) nrmS (-1) <
      vnorm (lawTrialFt pS (ppVrel pA pB cS) nrmS 0 1) := by
  rw [lawTrialFt_pA, vnorm_neg_x, lawFric_sample]
  · norm_num
  · rw [ppVrel_pA_pB]; simp [nrmS, dot]

theorem stick_sample :
    vnorm (lawTrialFt pS (ppVrel pB pB cS) nrmS 0 1) ≤
      lawFric pS (EffectiveValue pB.m pB.m) (ppVrel pB pB cS) nrmS (-1) := by
  rw [lawTrialFt_pB, vnorm_zero]
  exact lawFric_nonneg _ _ _ _ _ (by norm_num [pS])

/-- C1: friction cap (return mapping).  For every contact evaluated by the
particle-particle or particle-wall force assembler: if the trial tangential
force magnitude is at most the friction limit `mu * |normal force|` (spring
plus damping), the output tangential force is the unclipped elastic trial
force plus the tangential damping force (stick); if it strictly exceeds the
limit, the output tangential force has magnitude exactly the limit and the
direction of the trial force (slip). -/
theorem C1_friction_cap_return_mapping (p : LinearSurfaceProperty) (p1 p2 : Particle)
    (w : Wall) (tangOverlapOld : Vec3) (distance gapn : ℝ) (norm cpos : Vec3) (dt : ℝ)
    (hmu : 0 ≤ p.mu) :
    (vnorm (lawTrialFt p (ppVrel p1 p2 cpos) norm tangOverlapOld dt) ≤
        lawFric p (EffectiveValue p1.m p2.m) (ppVrel p1 p2 cpos) norm gapn →
      (ppForceAssemble p p1 p2 tangOverlapOld gapn norm cpos dt).tangential_force =
        lawTrialFt p (ppVrel p1 p2 cpos) norm tangOverlapOld dt +
          lawTangDamping p (EffectiveValue p1.m p2.m) (ppVrel p1 p2 cpos) norm) ∧
    (lawFric p (EffectiveValue p1.m p2.m) (ppVrel p1 p2 cpos) norm gapn <
        vnorm (lawTrialFt p (ppVrel p1 p2 cpos) norm tangOverlapOld dt) →
      vnorm (ppForceAssemble p p1 p2 tangOverlapOld gapn norm cpos dt).tangential_force =
        lawFric p (EffectiveValue p1.m p2.m) (ppVrel p1 p2 cpos) norm gapn ∧
      (ppForceAssemble p p1 p2 tangOverlapOld gapn norm cpos dt).tangential_force =
        (lawFric p (EffectiveValue p1.m p2.m) (ppVrel p1 p2 cpos) norm gapn /
            vnorm (lawTrialFt p (ppVrel p1 p2 cpos) norm tangOverlapOld dt)) •
          lawTrialFt p (ppVrel p1 p2 cpos) norm tangOverlapOld dt) ∧
    (vnorm (lawTrialFt p (pwVrel p1 w cpos) norm tangOverlapOld dt) ≤
        lawFric p p1.m (pwVrel p1 w cpos) norm gapn →
      (pwForceAssemble p p1 w tangOverlapOld distance gapn norm cpos dt).tangential_force =
        lawTrialFt p (pwVrel p1 w cpos) norm tangOverlapOld dt +
          lawTangDamping p p1.m (pwVrel p1 w cpos) norm) ∧
    (lawFric p p1.m (pwVrel p1 w cpos) norm gapn <
        vnorm (lawTrialFt p (pwVrel p1 w cpos) norm tangOverlapOld dt) →
      vnorm (pwForceAssemble p p1 w tangOverlapOld distance gapn norm cpos dt).tangential_force =
        lawFric p p1.m (pwVrel p1 w cpos) norm gapn ∧
      (pwForceAssemble p p1 w tangOverlapOld distance gapn norm cpos dt).tangential_force =
        (lawFric p p1.m (pwVrel p1 w cpos) norm gapn /
            vnorm (lawTrialFt p (pwVrel p1 w cpos) norm tangOverlapOld dt)) •
          lawTrialFt p (pwVrel p1 w cpos) norm tangOverlapOld dt) := by
  have hpp : (ppForceAssemble p p1 p2 tangOverlapOld gapn norm cpos dt).tangential_force =
      (contactLaw p (EffectiveValue p1.m p2.m) (ppVrel p1 p2 cpos) gapn norm
        tangOverlapOld dt).tangential_force := rfl
  have hpw : (pwForceAssemble p p1 w tangOverlapOld distance gapn norm cpos dt).tangential_force =
      (contactLaw p p1.m (pwVrel p1 w cpos) gapn norm tangOverlapOld dt).tangential_force := rfl
  refine ⟨?_, ?_, ?_, ?_⟩
  · intro h
    rw [hpp]
    exact (contactLaw_stick _ _ _ _ _ _ _ h).1
  · intro h
    rw [hpp]
    exact ⟨(contactLaw_slip _ _ _ _ _ _ _ hmu h).1, (contactLaw_slip _ _ _ _ _ _ _ hmu h).2.1⟩
  · intro h
    rw [hpw]
    exact (contactLaw_stick _ _ _ _ _ _ _ h).1
  · intro h
    rw [hpw]
    exact ⟨(contactLaw_slip _ _ _ _ _ _ _ hmu h).1, (contactLaw_slip _ _ _ _ _ _ _ hmu h).2.1⟩

/-- Witness for C1: a resting particle-particle contact sticks and a sliding
one slips, at the sample configuration. -/
theorem C1_friction_cap_return_mapping_witness :
    (0 ≤ pS.mu) ∧
    (ppForceAssemble pS pB pB 0 (-1) nrmS cS 1).tangential_force =
      lawTrialFt pS (ppVrel pB pB cS) nrmS 0 1 +
        lawTangDamping pS (EffectiveValue pB.m pB.m) (ppVrel pB pB cS) nrmS ∧
    vnorm (ppForceAssemble pS pA pB 0 (-1) nrmS cS 1).tangential_force =
      lawFric pS (EffectiveValue pA.m pB.m) (ppVrel pA pB cS) nrmS (-1) :=
  ⟨by norm_num [pS],
   (C1_friction_cap_return_mapping pS pB pB wS 0 0 (-1) nrmS cS 1
      (by norm_num [pS])).1 stick_sample,
   ((C1_friction_cap_return_mapping pS pA pB wS 0 0 (-1) nrmS cS 1
      (by norm_num [pS])).2.1 slip_sample).1⟩

/-- C2: identity-continuity rotation-projection.  When the stored overlap has
a nonzero projection onto the current tangent plane, the carried-forward term
added to the new tangential increment is the stored overlap's full magnitude
times the unit vector of that projection (no decay). -/
theorem C2_rotation_projection_carry (v_rel : Vec3) (dt : ℝ) (tangOverlapOld norm : Vec3)
    (h : tangOverlapRot tangOverlapOld norm ≠ 0) :
    lawTangOverTrial v_rel norm tangOverlapOld dt =
      dt • lawVs v_rel norm + carriedOverlap tangOverlapOld norm ∧
    carriedOverlap tangOverlapOld norm =
      vnorm tangOverlapOld •
        ((1 / vnorm (tangOverlapRot tangOverlapOld norm)) •
          tangOverlapRot tangOverlapOld norm) ∧
    vnorm (carriedOverlap tangOverlapOld norm) = vnorm tangOverlapOld := by
  have hn : vnorm (tangOverlapRot tangOverlapOld norm) ≠ 0 := by
    rw [Ne, vnorm_eq_zero_iff]; exact h
  refine ⟨rfl, ?_, ?_⟩
  · unfold carriedOverlap Normalize
    rw [if_neg hn]
  · unfold carriedOverlap Normalize
    rw [if_neg hn, vnorm_smul, vnorm_smul, abs_of_nonneg (vnorm_nonneg _),
      abs_of_nonneg (one_div_nonneg.mpr (vnorm_nonneg _))]
    field_simp

/-- Witness for C2 at a stored overlap `(3,4,0)` against the normal `(0,0,1)`. -/
theorem C2_rotation_projection_carry_witness :
    tangOverlapRot vO nrmS ≠ 0 ∧ vnorm (carriedOverlap vO nrmS) = vnorm vO := by
  have h : tangOverlapRot vO nrmS ≠ 0 := by
    simp [tangOverlapRot, vO, nrmS, dot, Vec3.smul_def, Vec3.sub_def, Vec3.zero_def,
      Vec3.ext_iff]
  exact ⟨h, (C2_rotation_projection_carry 0 1 vO nrmS h).2.2⟩

/-- C5: slip-case overlap back-computation round trip.  In the slip branch
the stored tangential overlap is minus the clipped tangential force divided
by the tangential stiffness, re-applying the elastic law `-ks * overlap`
reproduces the clipped force exactly, and the stored overlap's magnitude is
`mu * |normal force| / ks`. -/
theorem C5_slip_overlap_roundtrip (p : LinearSurfaceProperty) (p1 p2 : Particle)
    (tangOverlapOld : Vec3) (gapn : ℝ) (norm cpos : Vec3) (dt : ℝ)
    (hmu : 0 ≤ p.mu) (hks : 0 < p.ks)
    (hslip : lawFric p (EffectiveValue p1.m p2.m) (ppVrel p1 p2 cpos) norm gapn <
      vnorm (lawTrialFt p (ppVrel p1 p2 cpos) norm tangOverlapOld dt)) :
    (ppForceAssemble p p1 p2 tangOverlapOld gapn norm cpos dt).tangOverTemp =
      (-(1 : ℝ) / p.ks) •
        (ppForceAssemble p p1 p2 tangOverlapOld gapn norm cpos dt).tangential_force ∧
    (-p.ks) • (ppForceAssemble p p1 p2 tangOverlapOld gapn norm cpos dt).tangOverTemp =
      (ppForceAssemble p p1 p2 tangOverlapOld gapn norm cpos dt).tangential_force ∧
    vnorm (ppForceAssemble p p1 p2 tangOverlapOld gapn norm cpos dt).tangOverTemp =
      lawFric p (EffectiveValue p1.m p2.m) (ppVrel p1 p2 cpos) norm gapn / p.ks := by
  have hpp_t : (ppForceAssemble p p1 p2 tangOverlapOld gapn norm cpos dt).tangential_force =
      (contactLaw p (EffectiveValue p1.m p2.m) (ppVrel p1 p2 cpos) gapn norm
        tangOverlapOld dt).tangential_force := rfl
  have hpp_o : (ppForceAssemble p p1 p2 tangOverlapOld gapn norm cpos dt).tangOverTemp =
      (contactLaw p (EffectiveValue p1.m p2.m) (ppVrel p1 p2 cpos) gapn norm
        tangOverlapOld dt).tangOverTemp := rfl
  have hs := contactLaw_slip p (EffectiveValue p1.m p2.m) (ppVrel p1 p2 cpos) gapn norm
    tangOverlapOld dt hmu hslip
  refine ⟨?_, ?_, ?_⟩
  · rw [hpp_o, hpp_t]; exact hs.2.2
  · rw [hpp_o, hpp_t, hs.2.2, smul_smul']
    have hone : -p.ks * (-(1 : ℝ) / p.ks) = 1 := by field_simp
    rw [hone, one_smul']
  · rw [hpp_o, hs.2.2, vnorm_smul, hs.1]
    have habs : |(-(1 : ℝ)) / p.ks| = 1 / p.ks := by
      rw [abs_div, abs_neg, abs_one, abs_of_pos hks]
    rw [habs]
    ring

/-- Witness for C5 at the sliding sample contact: stiffness 1, friction
limit 1/2, trial force magnitude 1. -/
theorem C5_slip_overlap_roundtrip_witness :
    (0 ≤ pS.mu ∧ 0 < pS.ks ∧
      lawFric pS (EffectiveValue pA.m pB.m) (ppVrel pA pB cS) nrmS (-1) <
        vnorm (lawTrialFt pS (ppVrel pA pB cS) nrmS 0 1)) ∧
    (-pS.ks) • (ppForceAssemble pS pA pB 0 (-1) nrmS cS 1).tangOverTemp =
      (ppForceAssemble pS pA pB 0 (-1) nrmS cS 1).tangential_force :=
  ⟨⟨by norm_num [pS], by norm_num [pS], slip_sample⟩,
   (C5_slip_overlap_roundtrip pS pA pB 0 (-1) nrmS cS 1 (by norm_num [pS])
      (by norm_num [pS]) slip_sample).2.1⟩

/-- C9: degeneracy safety of the slip branch.  With a nonnegative friction
coefficient the friction limit is nonnegative, so the slip branch's condition
forces the normalized trial vector to have strictly positive norm; a
zero-norm vector is normalized to zero by the rotation-projection guard, and
a zero stored overlap contributes a zero carried term. -/
theorem C9_slip_branch_degeneracy_safety (p : LinearSurfaceProperty) (m_eff : ℝ)
    (v_rel : Vec3) (gapn : ℝ) (norm tangOverlapOld : Vec3) (dt : ℝ) (hmu : 0 ≤ p.mu) :
    0 ≤ lawFric p m_eff v_rel norm gapn ∧
    (lawFric p m_eff v_rel norm gapn <
        vnorm (lawTrialFt p v_rel norm tangOverlapOld dt) →
      0 < vnorm (lawTrialFt p v_rel norm tangOverlapOld dt)) ∧
    (∀ v : Vec3, vnorm v = 0 → Normalize v = 0) ∧
    carriedOverlap 0 norm = 0 := by
  refine ⟨lawFric_nonneg p m_eff v_rel norm gapn hmu, ?_, ?_, carriedOverlap_zero norm⟩
  · intro h
    exact lt_of_le_of_lt (lawFric_nonneg p m_eff v_rel norm gapn hmu) h
  · intro v hv
    unfold Normalize
    rw [if_pos hv]

/-- Witness for C9 at the sample property set and normal. -/
theorem C9_slip_branch_degeneracy_safety_witness :
    0 ≤ pS.mu ∧ carriedOverlap 0 nrmS = 0 :=
  ⟨by norm_num [pS],
   (C9_slip_branch_degeneracy_safety pS 1 0 (-1) nrmS 0 1 (by norm_num [pS])).2.2.2⟩

/-- Claim-stated reference moment for the particle-wall assembler, following
the specification's words ("scale the resulting force and moment by the
fraction"): the coverage fraction applied exactly once to the moment of the
resultant force.  This definition follows the spec, not the source, and is
compared against the source's `pwForceAssemble`. -/
noncomputable def pwMomentSpec (p : LinearSurfaceProperty) (p1 : Particle) (w : Wall)
    (tangOverlapOld : Vec3) (distance gapn : ℝ) (norm cpos : Vec3) (dt : ℝ) : Vec3 :=
  let law := contactLaw p p1.m (pwVrel p1 w cpos) gapn norm tangOverlapOld dt
  let fraction := |w.processCircleShape p1.x distance (-gapn)|
  fraction • cross (law.normal_force + law.tangential_force) (p1.x - cpos)

theorem contactLaw_pC : contactLaw pS pC.m (pwVrel pC wS cS) (-1) nrmS 0 1 =
    ⟨⟨0, 0, 1⟩, 0, 0⟩ := by
  have hcond : ¬ (lawFric pS pC.m (pwVrel pC wS cS) nrmS (-1) <
      vnorm (lawTrialFt pS (pwVrel pC wS cS) nrmS 0 1)) := by
    rw [lawTrialFt_pC, vnorm_zero]
    exact not_lt.mpr (lawFric_nonneg _ _ _ _ _ (by norm_num [pS]))
  rw [contactLaw_eq, if_neg hcond, lawTrialFt_pC]
  unfold lawNcf lawNdf lawTangDamping lawTangOverTrial
  rw [pwVrel_pC_wS, lawVs_zero, carriedOverlap_zero]
  simp [pS, pC, nrmS, dot, Vec3.smul_def, Vec3.add_def, Vec3.zero_def]

theorem pw_sample_force1 :
    (pwForceAssemble pS pC wS 0 0 (-1) nrmS cS 1).force1 = ⟨0, 0, 1/2⟩ := by
  show |wS.processCircleShape pC.x 0 (-(-1))| •
      ((contactLaw pS pC.m (pwVrel pC wS cS) (-1) nrmS 0 1).normal_force +
        (contactLaw pS pC.m (pwVrel pC wS cS) (-1) nrmS 0 1).tangential_force) = _
  rw [contactLaw_pC]
  simp [wS, Vec3.smul_def, Vec3.add_def, Vec3.zero_def]

theorem pw_sample_moment1 :
    (pwForceAssemble pS pC wS 0 0 (-1) nrmS cS 1).moment1 = ⟨0, 1/4, 0⟩ := by
  show |wS.processCircleShape pC.x 0 (-(-1))| •
      cross ((pwForceAssemble pS pC wS 0 0 (-1) nrmS cS 1).force1) (pC.x - cS) = _
  rw [pw_sample_force1]
  simp [wS, pC, cS, cross, Vec3.smul_def, Vec3.sub_def]
  rw [abs_of_pos (show (0 : ℝ) < 2⁻¹ by norm_num)]
  norm_num

theorem pwMomentSpec_sample :
    pwMomentSpec pS pC wS 0 0 (-1) nrmS cS 1 = ⟨0, 1/2, 0⟩ := by
  unfold pwMomentSpec
  rw [contactLaw_pC]
  simp [wS, pC, cS, cross, Vec3.smul_def, Vec3.add_def, Vec3.sub_def, Vec3.zero_def]

/-- Counterexample to C3 as stated: at the sample particle-wall contact with
coverage fraction 1/2, the accumulated moment is not the fraction applied
once to the moment of the resultant force — the source scales the moment a
second time. -/
theorem C3_boundary_coverage_counterexample :
    (pwForceAssemble pS pC wS 0 0 (-1) nrmS cS 1).moment1 ≠
      pwMomentSpec pS pC wS 0 0 (-1) nrmS cS 1 := by
  rw [pw_sample_moment1, pwMomentSpec_sample]
  simp [Vec3.ext_iff]

/-- C3 (amended): the total force accumulated onto the particle is scaled
exactly once by the coverage fraction, but the accumulated moment is scaled
by the coverage fraction twice — the source crosses the already-scaled total
force with the lever arm and multiplies by the fraction again, yielding
`fraction^2` times the moment of the unscaled resultant force. -/
theorem C3_boundary_coverage_scaling (p : LinearSurfaceProperty) (p1 : Particle) (w : Wall)
    (tangOverlapOld : Vec3) (distance gapn : ℝ) (norm cpos : Vec3) (dt : ℝ) :
    (pwForceAssemble p p1 w tangOverlapOld distance gapn norm cpos dt).force1 =
      (pwForceAssemble p p1 w tangOverlapOld distance gapn norm cpos dt).fraction •
        ((pwForceAssemble p p1 w tangOverlapOld distance gapn norm cpos dt).normal_force +
         (pwForceAssemble p p1 w tangOverlapOld distance gapn norm cpos dt).tangential_force) ∧
    (pwForceAssemble p p1 w tangOverlapOld distance gapn norm cpos dt).moment1 =
      ((pwForceAssemble p p1 w tangOverlapOld distance gapn norm cpos dt).fraction *
        (pwForceAssemble p p1 w tangOverlapOld distance gapn norm cpos dt).fraction) •
        cross
          ((pwForceAssemble p p1 w tangOverlapOld distance gapn norm cpos dt).normal_force +
           (pwForceAssemble p p1 w tangOverlapOld distance gapn norm cpos dt).tangential_force)
          (p1.x - cpos) := by
  refine ⟨rfl, ?_⟩
  show (pwForceAssemble p p1 w tangOverlapOld distance gapn norm cpos dt).fraction •
      cross ((pwForceAssemble p p1 w tangOverlapOld distance gapn norm cpos dt).fraction •
        ((pwForceAssemble p p1 w tangOverlapOld distance gapn norm cpos dt).normal_force +
         (pwForceAssemble p p1 w tangOverlapOld distance gapn norm cpos dt).tangential_force))
        (p1.x - cpos) = _
  rw [cross_smul_left, smul_smul']

/-- Counterexample to C4 as stated: at the sample particle-wall contact the
wall endpoint accumulates no force at all, which is not the negation of the
nonzero force accumulated onto the particle. -/
theorem C4_newton_counterexample :
    (pwForceAssemble pS pC wS 0 0 (-1) nrmS cS 1).wall_force ≠
      -(pwForceAssemble pS pC wS 0 0 (-1) nrmS cS 1).force1 := by
  have hw : (pwForceAssemble pS pC wS 0 0 (-1) nrmS cS 1).wall_force = 0 := rfl
  rw [hw, pw_sample_force1]
  simp [Vec3.ext_iff, Vec3.neg_def, Vec3.zero_def]

/-- C4 (amended): Newton's third law holds for the particle-particle and
coupled-particle assemblers — the force accumulated onto endpoint B is the
negation of the force accumulated onto endpoint A — while the particle-wall
assembler accumulates force and moment onto the particle only; the wall
endpoint receives no reaction. -/
theorem C4_newton_third_law (p : LinearSurfaceProperty) (p1 p2 : Particle) (w : Wall)
    (tangOverlapOld : Vec3) (distance gapn : ℝ) (norm cpos : Vec3) (dt : ℝ) :
    (ppForceAssemble p p1 p2 tangOverlapOld gapn norm cpos dt).force2 =
      -(ppForceAssemble p p1 p2 tangOverlapOld gapn norm cpos dt).force1 ∧
    (coupledForceAssemble p p1 p2 tangOverlapOld gapn norm cpos dt).force2 =
      -(coupledForceAssemble p p1 p2 tangOverlapOld gapn norm cpos dt).force1 ∧
    (pwForceAssemble p p1 w tangOverlapOld distance gapn norm cpos dt).wall_force = 0 ∧
    (pwForceAssemble p p1 w tangOverlapOld distance gapn norm cpos dt).wall_moment = 0 :=
  ⟨rfl, rfl, rfl, rfl⟩
